import Mathlib

/-!
Verification of the adaptive batch scheduling core of the `ferrik/video`
repository (files `batch_coordinator.py`, `antigravity_scheduler.py`,
`scheduler_config.py`).

Modelling conventions:
* timestamps and durations are integers counted in minutes
  (`timedelta(hours=1)` = 60, `timedelta(days=1)` = 1440,
  `api_cooldown_minutes` is already in minutes);
* a local time of day (`datetime.time`) is a natural number of minutes
  since midnight in [0, 1440); Python compares `time` values
  lexicographically on (hour, minute, ...), which coincides with the
  order on minutes-since-midnight;
* the external work provider (the per-item generation call inside
  `_execute_videos`, an external collaborator per the design) is an
  oracle `gen : Nat -> Bool` telling whether the call for item `i`
  returns normally (`true`) or raises (`false`);
* the external decision call `_ask_agent_for_batch_size` together with
  the `decision["batch_size"]` lookup is an oracle
  `Except String Int`: `.ok n` when the awaited call returns a size,
  `.error e` when it raises;
* an unexpected exception inside the `try` block of `execute_batch`
  (lines 110-144) is an oracle `Option String`; `some e` means the
  exception `e` is raised (modelled as raised at the top of the block);
* Python dictionaries holding only string data are association lists
  `List (String x String)`; the `status` fields are the underlying
  strings of the Python `str` enums ("success", "failed", "completed",
  "partial", ...).
-/

namespace Antigravity

/-! ## Configuration (scheduler_config.py) -/

/-- `BatchConfig` from scheduler_config.py lines 11-26. -/
structure BatchConfig where
  min_videos : Int
  max_videos : Int
  default_batch_size : Int
  adaptive : Bool
  max_daily_videos : Int
  max_hourly_videos : Int
  api_cooldown_minutes : Int
  retry_on_failure : Bool
  max_retries : Int

/-- `ScheduleConfig` from scheduler_config.py lines 29-50; quiet-hours
bounds are minutes since midnight. -/
structure ScheduleConfig where
  interval_hours : Int
  quiet_hours_start : Nat
  quiet_hours_end : Nat

/-- `AntigravitySchedulerConfig` (the fields the coordinator reads). -/
structure AntigravityConfig where
  batch : BatchConfig
  schedule : ScheduleConfig
  agent_has_veto : Bool

/-! ## Data model (batch_coordinator.py lines 18-51) -/

/-- `VideoResult` from batch_coordinator.py lines 28-36.  `metadata` is
the only-used shape `{"index": i}` as an association list. -/
structure VideoResult where
  video_id : Option String
  platform : String
  niche : String
  status : String
  error : Option String
  generation_time : Rat
  metadata : List (String × Int)

/-- `BatchResult` from batch_coordinator.py lines 39-51.  `status` holds
the underlying string of the `BatchStatus` str-enum. -/
structure BatchResult where
  batch_id : String
  status : String
  requested_count : Int
  successful_count : Int
  failed_count : Int
  skipped_count : Int
  total_time : Rat
  videos : List VideoResult
  agent_decision : List (String × String)
  timestamp : Int

/-- The mutable runtime state of `BatchCoordinator`
(batch_coordinator.py lines 75-84). -/
structure CoordState where
  current_batch : Option String
  execution_history : List BatchResult
  last_execution : Option Int
  daily_video_count : Int
  hourly_video_count : Int
  last_hour_reset : Int
  last_day_reset : Int

/-! ## Gate (lines 152-205) -/

/-- `_reset_counters` (lines 193-205): lazy sliding-window reset of the
hourly and daily counters. -/
def reset_counters (s : CoordState) (now : Int) : CoordState :=
  let s1 :=
    if now - s.last_hour_reset ≥ 60 then
      { s with hourly_video_count := 0, last_hour_reset := now }
    else s
  if now - s1.last_day_reset ≥ 1440 then
    { s1 with daily_video_count := 0, last_day_reset := now }
  else s1

/-- `_is_quiet_hours` (lines 182-191); `tod` is the current local time
of day in minutes since midnight. -/
def is_quiet_hours (cfg : AntigravityConfig) (tod : Nat) : Bool :=
  let start := cfg.schedule.quiet_hours_start
  let stop := cfg.schedule.quiet_hours_end
  if start < stop then
    decide (start ≤ tod ∧ tod ≤ stop)
  else
    decide (tod ≥ start ∨ tod ≤ stop)

/-- The four distinct skip branches of `_should_execute`
(lines 158-178), in source order; each corresponds to a distinct
log message and `return False`. -/
inductive GateSkip where
  | dailyLimit
  | hourlyLimit
  | cooldown
  | quietHours

/-- The check sequence of `_should_execute` after `_reset_counters`
(lines 158-180): first failing check wins, `none` means proceed. -/
def gate_reason (cfg : AntigravityConfig) (s : CoordState) (now : Int)
    (tod : Nat) : Option GateSkip :=
  if s.daily_video_count ≥ cfg.batch.max_daily_videos then some .dailyLimit
  else if s.hourly_video_count ≥ cfg.batch.max_hourly_videos then some .hourlyLimit
  else if (match s.last_execution with
           | some t => decide (now - t < cfg.batch.api_cooldown_minutes)
           | none => false) then some .cooldown
  else if is_quiet_hours cfg tod then some .quietHours
  else none

/-- `_should_execute` (lines 152-180): runs `_reset_counters` on the
shared state, then the checks; returns the verdict and the state as
mutated by the reset. -/
def should_execute (cfg : AntigravityConfig) (s : CoordState) (now : Int)
    (tod : Nat) : Bool × CoordState :=
  let s1 := reset_counters s now
  ((gate_reason cfg s1 now tod).isNone, s1)

/-! ## Decider (lines 207-236) -/

/-- `_determine_batch_size` (lines 207-236).  `agent_decision` is the
outcome of `await self._ask_agent_for_batch_size(...)` followed by the
`decision["batch_size"]` lookup (both inside the `try`). -/
def determine_batch_size (cfg : AntigravityConfig)
    (force_count : Option Int) (agent_decision : Except String Int) : Int :=
  match force_count with
  | some fc => min fc cfg.batch.max_videos
  | none =>
    if cfg.batch.adaptive && cfg.agent_has_veto then
      match agent_decision with
      | .ok n => n
      | .error _ => cfg.batch.default_batch_size
    else
      cfg.batch.default_batch_size

/-! ## Executor (lines 314-372) -/

/-- The caller-level default platform list (line 323,
`platforms or ["tiktok", "instagram"]`). -/
def default_platforms : List String := ["tiktok", "instagram"]

/-- Python `platforms or default`: `None` and the empty list are both
falsy and replaced by the default. -/
def or_default (platforms : Option (List String)) : List String :=
  match platforms with
  | none => default_platforms
  | some [] => default_platforms
  | some l => l

/-- Round-robin platform selection `platforms[i % len(platforms)]`
(line 329); the list is non-empty after `or_default`, so `getD` never
falls back. -/
def round_platform (platforms : List String) (i : Nat) : String :=
  platforms.getD (i % platforms.length) ""

/-- The `VideoResult` built on a successful provider call
(lines 345-352); the id and duration come from the clock, modelled from
the item index and the placeholder 2-second generation. -/
def success_item (platform niche : String) (i : Nat) : VideoResult :=
  { video_id := some ("vid_" ++ toString i)
    platform := platform
    niche := niche
    status := "success"
    error := none
    generation_time := 2
    metadata := [("index", (i : Int))] }

/-- The `VideoResult` built when the provider call raises
(lines 359-365). -/
def failed_item (platform niche : String) (e : String) : VideoResult :=
  { video_id := none
    platform := platform
    niche := niche
    status := "failed"
    error := some e
    generation_time := 0
    metadata := [] }

/-- The loop body of `_execute_videos` (lines 327-371), indexed by the
remaining iteration count `n` and the current index `i`.  On a failed
item, the loop `break`s unless `retry_on_failure` is set
(lines 367-370). -/
def execute_videos_from (cfg : AntigravityConfig) (gen : Nat → Bool)
    (platforms : List String) (niche : String) :
    Nat → Nat → List VideoResult
  | 0, _ => []
  | n + 1, i =>
    let platform := round_platform platforms i
    if gen i then
      success_item platform niche i ::
        execute_videos_from cfg gen platforms niche n (i + 1)
    else
      failed_item platform niche "provider error" ::
        (if cfg.batch.retry_on_failure then
          execute_videos_from cfg gen platforms niche n (i + 1)
        else [])

/-- `_execute_videos` (lines 314-372).  `range(count)` iterates
`count.toNat` times (empty for non-positive `count`); `niche or
"general"` is `getD`. -/
def execute_videos (cfg : AntigravityConfig) (gen : Nat → Bool)
    (count : Int) (platforms : Option (List String))
    (niche : Option String) : List VideoResult :=
  execute_videos_from cfg gen (or_default platforms) (niche.getD "general")
    count.toNat 0

/-! ## Result Compiler (lines 374-406) -/

/-- `sum(1 for r in results if r.status == "success")` (line 383). -/
def count_success (results : List VideoResult) : Nat :=
  (results.filter (fun r => r.status == "success")).length

/-- `sum(1 for r in results if r.status == "failed")` (line 384). -/
def count_failed (results : List VideoResult) : Nat :=
  (results.filter (fun r => r.status == "failed")).length

/-- The status classification of `_compile_batch_result`
(lines 387-394), a pure function of the three counts. -/
def compile_status (requested successful failed : Int) : String :=
  if successful = requested then "completed"
  else if successful > 0 then "partial"
  else if failed > 0 then "failed"
  else "skipped"

/-- `_compile_batch_result` (lines 374-406).  `total_time` and
`timestamp` abstract the wall clock. -/
def compile_batch_result (batch_id : String) (requested : Int)
    (results : List VideoResult) (total_time : Rat) (timestamp : Int) :
    BatchResult :=
  let successful : Int := count_success results
  let failed : Int := count_failed results
  let skipped : Int := requested - results.length
  { batch_id := batch_id
    status := compile_status requested successful failed
    requested_count := requested
    successful_count := successful
    failed_count := failed
    skipped_count := skipped
    total_time := total_time
    videos := results
    agent_decision := []
    timestamp := timestamp }

/-! ## History / metrics (lines 408-432) -/

/-- Python `l[-n:]`: the last `n` elements. -/
def lastN (n : Nat) (l : List α) : List α :=
  l.drop (l.length - n)

/-- `_update_metrics` (lines 408-417): bump counters by the successes,
stamp `last_execution`, append to the history, trim to 100. -/
def update_metrics (s : CoordState) (result : BatchResult) (now : Int) :
    CoordState :=
  let s1 :=
    { s with
      daily_video_count := s.daily_video_count + result.successful_count
      hourly_video_count := s.hourly_video_count + result.successful_count
      last_execution := some now
      execution_history := s.execution_history ++ [result] }
  if s1.execution_history.length > 100 then
    { s1 with execution_history := lastN 100 s1.execution_history }
  else s1

/-- Sum of `requested_count` over a list of results. -/
def sum_requested (l : List BatchResult) : Int :=
  (l.map (·.requested_count)).sum

/-- Sum of `successful_count` over a list of results. -/
def sum_successful (l : List BatchResult) : Int :=
  (l.map (·.successful_count)).sum

/-- The dictionary returned by `_get_recent_performance`; on an empty
history Python returns only the `success_rate` key (value `None`), the
other keys are absent, modelled as `none`. -/
structure Perf where
  success_rate : Option Rat
  avg_batch_size : Option Rat
  total_batches : Option Nat

/-- `_get_recent_performance` (lines 419-432). -/
def get_recent_performance (history : List BatchResult) : Perf :=
  if history.isEmpty then
    { success_rate := none, avg_batch_size := none, total_batches := none }
  else
    let recent := lastN 10 history
    let total_requested := sum_requested recent
    let total_successful := sum_successful recent
    { success_rate :=
        some (if total_requested > 0 then
          (total_successful : Rat) / (total_requested : Rat) else 0)
      avg_batch_size := some ((total_requested : Rat) / (recent.length : Rat))
      total_batches := some recent.length }

/-! ## Skip / failure results (lines 439-472) -/

/-- `_create_skipped_result` (lines 439-452). -/
def create_skipped_result (batch_id reason : String) (timestamp : Int) :
    BatchResult :=
  { batch_id := batch_id
    status := "skipped"
    requested_count := 0
    successful_count := 0
    failed_count := 0
    skipped_count := 0
    total_time := 0
    videos := []
    agent_decision := [("reason", reason)]
    timestamp := timestamp }

/-- `_create_failed_result` (lines 454-472). -/
def create_failed_result (batch_id error : String) (total_time : Rat)
    (timestamp : Int) : BatchResult :=
  { batch_id := batch_id
    status := "failed"
    requested_count := 0
    successful_count := 0
    failed_count := 1
    skipped_count := 0
    total_time := total_time
    videos := []
    agent_decision := [("error", error)]
    timestamp := timestamp }

/-! ## The cycle (`execute_batch`, lines 86-150) -/

/-- The per-cycle inputs of `execute_batch`, including the oracles for
the three external effects (work provider, decision call, unexpected
orchestration exception) and the clock readings. -/
structure BatchInputs where
  platforms : Option (List String)
  niche : Option String
  force_count : Option Int
  agent_decision : Except String Int
  gen : Nat → Bool
  orchestration_error : Option String
  now : Int
  tod : Nat
  total_time : Rat

/-- `execute_batch` (lines 86-150): set `current_batch`, gate, decide
size, execute, compile, update metrics; the `except` clause converts an
orchestration exception into `_create_failed_result`; the `finally`
clause clears `current_batch`.  Returns the `BatchResult` and the
post-cycle coordinator state. -/
def execute_batch (cfg : AntigravityConfig) (s : CoordState)
    (inp : BatchInputs) (batch_id : String) : BatchResult × CoordState :=
  let s0 := { s with current_batch := some batch_id }
  match inp.orchestration_error with
  | some e =>
    (create_failed_result batch_id e inp.total_time inp.now,
     { s0 with current_batch := none })
  | none =>
    let gate := should_execute cfg s0 inp.now inp.tod
    let s1 := gate.2
    if !gate.1 then
      (create_skipped_result batch_id "Rate limit or quiet hours" inp.now,
       { s1 with current_batch := none })
    else
      let batch_size := determine_batch_size cfg inp.force_count inp.agent_decision
      if batch_size = 0 then
        (create_skipped_result batch_id "Agent vetoed execution" inp.now,
         { s1 with current_batch := none })
      else
        let results := execute_videos cfg inp.gen batch_size inp.platforms inp.niche
        let batch_result :=
          compile_batch_result batch_id batch_size results inp.total_time inp.now
        let s2 := update_metrics s1 batch_result inp.now
        (batch_result, { s2 with current_batch := none })

/-- `AntigravityScheduler.manual_trigger` (antigravity_scheduler.py
lines 219-222): forwards directly to `coordinator.execute_batch` with
no guard of its own. -/
def manual_trigger (cfg : AntigravityConfig) (s : CoordState)
    (inp : BatchInputs) (batch_id : String) : BatchResult × CoordState :=
  execute_batch cfg s inp batch_id

/-- `AntigravityScheduler._default_scheduled_job` (lines 145-158): runs
the cycle and swallows every exception, so a fire always returns
normally with the post-cycle state. -/
def default_scheduled_job (cfg : AntigravityConfig) (s : CoordState)
    (inp : BatchInputs) (batch_id : String) : CoordState :=
  (execute_batch cfg s inp batch_id).2

/-! ## Interleaving semantics of concurrent cycles

Under asyncio, the only point of `execute_batch` at which control
returns to the event loop is the awaited per-item provider call
(`await asyncio.sleep(2)`, batch_coordinator.py line 343): the bodies of
`_should_execute`, `_ask_agent_for_batch_size` and the compile/metrics
steps contain no yielding await.  A task running `execute_batch` is
therefore an atomic prefix (entry, gate, size decision, lines 103-121),
then one suspension per work item, then an atomic suffix (compile,
metrics, lines 127-143).  The `Phase`/`step_task` relation below is
that segmentation; `CoordState` is the shared coordinator object. -/

/-- Where a task running `execute_batch` currently stands.
`running acc i rem` means: `acc` items fully recorded, the call for
item `i` has been issued and is awaited, `rem` items including that one
are still to be produced. -/
inductive Phase where
  | notStarted
  | running (acc : List VideoResult) (i : Nat) (rem : Nat) (size : Int)
  | finished (r : BatchResult)

/-- `true` exactly when the task is mid-cycle inside the Executor. -/
def Phase.isRunning : Phase → Bool
  | .running _ _ _ _ => true
  | _ => false

/-- One asyncio task executing `execute_batch` with its inputs. -/
structure Task where
  phase : Phase
  inp : BatchInputs
  batch_id : String

/-- The atomic suffix of the cycle: compile the accumulated items,
update the metrics, clear `current_batch` (lines 127-143, 149-150). -/
def finish_cycle (t : Task) (size : Int) (results : List VideoResult)
    (s : CoordState) : Phase × CoordState :=
  let r := compile_batch_result t.batch_id size results t.inp.total_time t.inp.now
  let s2 := update_metrics s r t.inp.now
  (.finished r, { s2 with current_batch := none })

/-- One scheduling step of a task against the shared state.  From
`notStarted` it runs the atomic prefix of `execute_batch` (entry, gate,
size decision) and either finishes on a skip/failure path or suspends
awaiting item 0; from `running` it completes the awaited item and
either suspends on the next one or runs the atomic suffix. -/
def step_task (cfg : AntigravityConfig) (t : Task) (s : CoordState) :
    Task × CoordState :=
  match t.phase with
  | .finished _ => (t, s)
  | .notStarted =>
    let s0 := { s with current_batch := some t.batch_id }
    match t.inp.orchestration_error with
    | some e =>
      let ph := Phase.finished (create_failed_result t.batch_id e t.inp.total_time t.inp.now)
      ({ t with phase := ph }, { s0 with current_batch := none })
    | none =>
      let gate := should_execute cfg s0 t.inp.now t.inp.tod
      let s1 := gate.2
      if !gate.1 then
        let ph := Phase.finished (create_skipped_result t.batch_id "Rate limit or quiet hours" t.inp.now)
        ({ t with phase := ph }, { s1 with current_batch := none })
      else
        let size := determine_batch_size cfg t.inp.force_count t.inp.agent_decision
        if size = 0 then
          let ph := Phase.finished (create_skipped_result t.batch_id "Agent vetoed execution" t.inp.now)
          ({ t with phase := ph }, { s1 with current_batch := none })
        else if size.toNat = 0 then
          -- non-positive size: `range(count)` is empty, no suspension
          let (ph, s2) := finish_cycle t size [] s1
          ({ t with phase := ph }, s2)
        else
          ({ t with phase := .running [] 0 size.toNat size }, s1)
  | .running acc i rem size =>
    match rem with
    | 0 =>
      -- unreachable by construction; close the cycle defensively
      let (ph, s2) := finish_cycle t size acc s
      ({ t with phase := ph }, s2)
    | rem' + 1 =>
      let platforms := or_default t.inp.platforms
      let niche := (t.inp.niche).getD "general"
      let platform := round_platform platforms i
      if t.inp.gen i then
        let acc' := acc ++ [success_item platform niche i]
        if rem' = 0 then
          let (ph, s2) := finish_cycle t size acc' s
          ({ t with phase := ph }, s2)
        else
          ({ t with phase := .running acc' (i + 1) rem' size }, s)
      else
        let acc' := acc ++ [failed_item platform niche "provider error"]
        if cfg.batch.retry_on_failure && rem' ≠ 0 then
          ({ t with phase := .running acc' (i + 1) rem' size }, s)
        else
          let (ph, s2) := finish_cycle t size acc' s
          ({ t with phase := ph }, s2)

/-- Two concurrent tasks sharing one coordinator: a scheduled fire and
a manual trigger. -/
structure Sys where
  t1 : Task
  t2 : Task
  shared : CoordState

/-- Step the chosen task (`true` = task 1). -/
def sys_step (cfg : AntigravityConfig) (sys : Sys) (who : Bool) : Sys :=
  if who then
    let (t1, sh) := step_task cfg sys.t1 sys.shared
    { sys with t1 := t1, shared := sh }
  else
    let (t2, sh) := step_task cfg sys.t2 sys.shared
    { sys with t2 := t2, shared := sh }

/-- Run a concrete interleaving schedule. -/
def run_trace (cfg : AntigravityConfig) (sys : Sys) : List Bool → Sys
  | [] => sys
  | who :: rest => run_trace cfg (sys_step cfg sys who) rest

/-! ## Concrete fixtures (the defaults of scheduler_config.py) -/

/-- The `BatchConfig` defaults of scheduler_config.py lines 11-26. -/
def base_batch : BatchConfig :=
  { min_videos := 1
    max_videos := 5
    default_batch_size := 3
    adaptive := true
    max_daily_videos := 20
    max_hourly_videos := 8
    api_cooldown_minutes := 5
    retry_on_failure := true
    max_retries := 3 }

/-- The `ScheduleConfig` defaults: quiet hours 01:00-06:00. -/
def base_schedule : ScheduleConfig :=
  { interval_hours := 6
    quiet_hours_start := 60
    quiet_hours_end := 360 }

/-- The default master configuration. -/
def base_config : AntigravityConfig :=
  { batch := base_batch
    schedule := base_schedule
    agent_has_veto := true }

/-- A freshly constructed coordinator state at time `t`
(batch_coordinator.py lines 75-84). -/
def fresh_state (t : Int) : CoordState :=
  { current_batch := none
    execution_history := []
    last_execution := none
    daily_video_count := 0
    hourly_video_count := 0
    last_hour_reset := t
    last_day_reset := t }

/-- Quiet-hours config with the wraparound window 22:00-02:00. -/
def cfgQ2 : AntigravityConfig :=
  { base_config with schedule :=
      { base_schedule with quiet_hours_start := 1320, quiet_hours_end := 120 } }

/-! ## Claim theorems -/

/-- Claim C1, counterexample: at the triple `(0, 0, 0)` — which
satisfies `successful + failed ≤ requested` — the compiled status is
`completed`, not the `skipped` demanded by the claim's
`successful == 0 and failed == 0` row (the code's first branch has no
`requested > 0` guard). -/
theorem C1_status_counterexample :
    (compile_batch_result "b" 0 [] 0 0).requested_count = 0 ∧
    (compile_batch_result "b" 0 [] 0 0).successful_count = 0 ∧
    (compile_batch_result "b" 0 [] 0 0).failed_count = 0 ∧
    (compile_batch_result "b" 0 [] 0 0).status = "completed" ∧
    (compile_batch_result "b" 0 [] 0 0).status ≠ "skipped" := by
  refine ⟨rfl, rfl, rfl, rfl, ?_⟩
  decide

/-- Claim C1, amended: for every triple `(requested, successful,
failed)` with `successful + failed ≤ requested` and `requested > 0`,
the compiled status is exactly: Completed iff `successful = requested`;
Partial iff `0 < successful < requested`; Failed iff `successful = 0`
and `failed > 0`; Skipped iff `successful = 0` and `failed = 0`.  (At
`requested = 0` the code returns Completed instead of Skipped.) -/
theorem C1_status_table (r s f : Int) (hs : 0 ≤ s) (hf : 0 ≤ f)
    (hsf : s + f ≤ r) (hr : 0 < r) :
    (compile_status r s f = "completed" ↔ s = r) ∧
    (compile_status r s f = "partial" ↔ 0 < s ∧ s < r) ∧
    (compile_status r s f = "failed" ↔ s = 0 ∧ 0 < f) ∧
    (compile_status r s f = "skipped" ↔ s = 0 ∧ f = 0) := by
  unfold compile_status
  split_ifs with h1 h2 h3 <;> simp +decide <;> omega

/-- Witness for `C1_status_table` at the concrete triple `(3, 2, 1)`. -/
theorem C1_status_table_witness :
    (compile_status 3 2 1 = "partial" ↔ 0 < (2 : Int) ∧ (2 : Int) < 3) ∧
    compile_status 3 2 1 = "partial" := by
  have h := C1_status_table 3 2 1 (by decide) (by decide) (by decide) (by decide)
  exact ⟨h.2.1, h.2.1.mpr (by decide)⟩

/-- Claim C7 (confirmed): the gate treats a time of day `tod` as inside
quiet hours exactly per the two-case rule — `start < end`: inside iff
`start ≤ tod ≤ end`; `start ≥ end` (wraps past midnight): inside iff
`tod ≥ start` or `tod ≤ end` — and on the concrete windows: 01:00-06:00
has 03:00 inside and 23:00 outside; 22:00-02:00 has 23:30 inside and
10:00 outside. -/
theorem C7_quiet_hours_window :
    (∀ (cfg : AntigravityConfig) (tod : Nat),
      is_quiet_hours cfg tod = true ↔
        ((cfg.schedule.quiet_hours_start < cfg.schedule.quiet_hours_end ∧
          cfg.schedule.quiet_hours_start ≤ tod ∧
          tod ≤ cfg.schedule.quiet_hours_end) ∨
         (cfg.schedule.quiet_hours_end ≤ cfg.schedule.quiet_hours_start ∧
          (tod ≥ cfg.schedule.quiet_hours_start ∨
           tod ≤ cfg.schedule.quiet_hours_end)))) ∧
    is_quiet_hours base_config 180 = true ∧
    is_quiet_hours base_config 1380 = false ∧
    is_quiet_hours cfgQ2 1410 = true ∧
    is_quiet_hours cfgQ2 600 = false := by
  refine ⟨?_, by decide, by decide, by decide, by decide⟩
  intro cfg tod
  unfold is_quiet_hours
  dsimp only
  split_ifs with h <;> simp <;> omega

/-- Claim C6 (confirmed): on every gate evaluation with
`now − hourResetAt ≥ 1` hour the hourly counter is reset to 0 and its
baseline advanced to `now` (analogously for the daily counter with a
1-day window), the gate's checks see the reset state, and the
evaluation is not skipped by the hourly limit. -/
theorem C6_counter_reset (cfg : AntigravityConfig) (s : CoordState)
    (now : Int) (tod : Nat) (h : 60 ≤ now - s.last_hour_reset) :
    (reset_counters s now).hourly_video_count = 0 ∧
    (reset_counters s now).last_hour_reset = now ∧
    (1440 ≤ now - s.last_day_reset →
      (reset_counters s now).daily_video_count = 0 ∧
        (reset_counters s now).last_day_reset = now) ∧
    (should_execute cfg s now tod).2.hourly_video_count = 0 ∧
    (0 < cfg.batch.max_hourly_videos →
      gate_reason cfg (reset_counters s now) now tod ≠ some GateSkip.hourlyLimit) := by
  have hge : now - s.last_hour_reset ≥ 60 := h
  unfold should_execute gate_reason reset_counters
  dsimp only
  rw [if_pos hge]
  dsimp only
  split_ifs <;> simp_all

/-- Witness for `C6_counter_reset`: `hourResetAt` 61 minutes in the
past with `hourlyCount = 5` resets the count to 0 and is not skipped by
the hourly limit. -/
theorem C6_counter_reset_witness :
    (reset_counters { fresh_state 0 with hourly_video_count := 5 } 61).hourly_video_count = 0 ∧
    (reset_counters { fresh_state 0 with hourly_video_count := 5 } 61).last_hour_reset = 61 ∧
    gate_reason base_config (reset_counters { fresh_state 0 with hourly_video_count := 5 } 61) 61 600 ≠
      some GateSkip.hourlyLimit := by
  have h := C6_counter_reset base_config
    { fresh_state 0 with hourly_video_count := 5 } 61 600 (by decide)
  exact ⟨h.1, h.2.1, h.2.2.2.2 (by decide)⟩

/-- Claim C4, counterexample: with `forceCount = -1` the size actually
used is `-1`, outside `[0, maxVideos]` — the code takes
`min(force_count, max_videos)` with no lower clamp at 0 — and the cycle
then compiles a `BatchResult` with `requested_count = -1`. -/
theorem C4_force_counterexample :
    determine_batch_size base_config (some (-1)) (Except.error "ignored") = -1 ∧
    ¬ (0 ≤ determine_batch_size base_config (some (-1)) (Except.error "ignored")) ∧
    (execute_batch base_config (fresh_state 6000)
      { platforms := none, niche := none, force_count := some (-1),
        agent_decision := Except.error "ignored", gen := fun _ => true,
        orchestration_error := none, now := 6000, tod := 600,
        total_time := 0 } "b").1.requested_count = -1 := by
  exact ⟨rfl, by decide, rfl⟩

/-- Claim C4, amended: a supplied forced count bypasses the Decider
entirely (the result is `min(forceCount, maxVideos)`, independent of
the agent decision), is never above `maxVideos`, and lies in
`[0, maxVideos]` whenever `forceCount ≥ 0`; `forceCount = 7` with
`maxVideos = 5` yields exactly 5.  A negative `forceCount` is not
clamped to 0. -/
theorem C4_force_clamp (cfg : AntigravityConfig) (fc : Int)
    (ad ad' : Except String Int) (hmax : 0 ≤ cfg.batch.max_videos) :
    determine_batch_size cfg (some fc) ad = min fc cfg.batch.max_videos ∧
    determine_batch_size cfg (some fc) ad = determine_batch_size cfg (some fc) ad' ∧
    determine_batch_size cfg (some fc) ad ≤ cfg.batch.max_videos ∧
    (0 ≤ fc → 0 ≤ determine_batch_size cfg (some fc) ad) ∧
    (fc = 7 → cfg.batch.max_videos = 5 →
      determine_batch_size cfg (some fc) ad = 5) := by
  unfold determine_batch_size
  refine ⟨rfl, rfl, ?_, ?_, ?_⟩ <;> dsimp only <;> omega

/-- Witness for `C4_force_clamp`: `forceCount = 7`, `maxVideos = 5`
gives exactly 5, which is within `[0, 5]`. -/
theorem C4_force_clamp_witness :
    determine_batch_size base_config (some 7) (Except.error "ignored") = 5 ∧
    0 ≤ determine_batch_size base_config (some 7) (Except.error "ignored") := by
  have h := C4_force_clamp base_config 7 (Except.error "ignored")
    (Except.ok 9) (by decide)
  exact ⟨h.2.2.2.2 rfl rfl, h.2.2.2.1 (by decide)⟩

/-! ### Executor loop lemmas -/

theorem count_success_nil : count_success [] = 0 := rfl

theorem count_failed_nil : count_failed [] = 0 := rfl

theorem count_success_cons_success (platform niche : String) (i : Nat)
    (l : List VideoResult) :
    count_success (success_item platform niche i :: l) = count_success l + 1 := by
  unfold count_success success_item
  rw [List.filter_cons]
  simp

theorem count_failed_cons_success (platform niche : String) (i : Nat)
    (l : List VideoResult) :
    count_failed (success_item platform niche i :: l) = count_failed l := by
  unfold count_failed success_item
  rw [List.filter_cons]
  simp +decide

theorem count_success_cons_failed (platform niche e : String)
    (l : List VideoResult) :
    count_success (failed_item platform niche e :: l) = count_success l := by
  unfold count_success failed_item
  rw [List.filter_cons]
  simp +decide

theorem count_failed_cons_failed (platform niche e : String)
    (l : List VideoResult) :
    count_failed (failed_item platform niche e :: l) = count_failed l + 1 := by
  unfold count_failed failed_item
  rw [List.filter_cons]
  simp

/-- With continue-on-failure set, the loop attempts all `n` items
whatever the provider outcomes are. -/
theorem execute_videos_from_length_retry (cfg : AntigravityConfig)
    (gen : Nat → Bool) (ps : List String) (niche : String)
    (hr : cfg.batch.retry_on_failure = true) :
    ∀ n i0, (execute_videos_from cfg gen ps niche n i0).length = n := by
  intro n
  induction n with
  | zero => intro i0; rfl
  | succ m ih =>
    intro i0
    unfold execute_videos_from
    by_cases hg : gen i0 <;> simp [hg, hr, ih]

/-- When every provider call succeeds, the loop produces `n` success
items and no failed item. -/
theorem execute_videos_from_all_success (cfg : AntigravityConfig)
    (gen : Nat → Bool) (ps : List String) (niche : String)
    (hg : ∀ i, gen i = true) :
    ∀ n i0, (execute_videos_from cfg gen ps niche n i0).length = n ∧
      count_success (execute_videos_from cfg gen ps niche n i0) = n ∧
      count_failed (execute_videos_from cfg gen ps niche n i0) = 0 := by
  intro n
  induction n with
  | zero => intro i0; exact ⟨rfl, rfl, rfl⟩
  | succ m ih =>
    intro i0
    unfold execute_videos_from
    rw [hg i0]
    simp only [if_true]
    obtain ⟨ih1, ih2, ih3⟩ := ih (i0 + 1)
    refine ⟨by simp [ih1], ?_, ?_⟩
    · rw [count_success_cons_success, ih2]
    · rw [count_failed_cons_success, ih3]

/-- Without continue-on-failure, a first failure at offset `p` stops
the loop: exactly `p` successes then one failed item are recorded. -/
theorem execute_videos_from_abort (cfg : AntigravityConfig)
    (gen : Nat → Bool) (ps : List String) (niche : String)
    (hr : cfg.batch.retry_on_failure = false) :
    ∀ p n i0, p < n → (∀ j, j < p → gen (i0 + j) = true) →
      gen (i0 + p) = false →
      (execute_videos_from cfg gen ps niche n i0).length = p + 1 ∧
      count_success (execute_videos_from cfg gen ps niche n i0) = p ∧
      count_failed (execute_videos_from cfg gen ps niche n i0) = 1 := by
  intro p
  induction p with
  | zero =>
    intro n i0 hn _ hf
    match n, hn with
    | m + 1, _ =>
      unfold execute_videos_from
      have h0 : gen i0 = false := by simpa using hf
      rw [h0]
      simp only [Bool.false_eq_true, if_false, hr]
      refine ⟨by simp, ?_, ?_⟩
      · rw [count_success_cons_failed, count_success_nil]
      · rw [count_failed_cons_failed, count_failed_nil]
  | succ q ih =>
    intro n i0 hn hs hf
    match n, hn with
    | m + 1, hn' =>
      have hg0 : gen i0 = true := by
        have := hs 0 (Nat.succ_pos q); simpa using this
      have hs' : ∀ j, j < q → gen (i0 + 1 + j) = true := by
        intro j hj
        rw [show i0 + 1 + j = i0 + (j + 1) by omega]
        exact hs (j + 1) (by omega)
      have hf' : gen (i0 + 1 + q) = false := by
        rw [show i0 + 1 + q = i0 + (q + 1) by omega]
        exact hf
      obtain ⟨ih1, ih2, ih3⟩ := ih m (i0 + 1) (by omega) hs' hf'
      unfold execute_videos_from
      rw [hg0]
      simp only [if_true]
      refine ⟨by simp [ih1], ?_, ?_⟩
      · rw [count_success_cons_success, ih2]
      · rw [count_failed_cons_success, ih3]

/-- Unfolding `execute_videos` at a natural-number count. -/
theorem execute_videos_natCast (cfg : AntigravityConfig)
    (gen : Nat → Bool) (count : Nat) (platforms : Option (List String))
    (niche : Option String) :
    execute_videos cfg gen (count : Int) platforms niche =
      execute_videos_from cfg gen (or_default platforms)
        (niche.getD "general") count 0 := by
  unfold execute_videos
  rw [Int.toNat_natCast]

/-- Claim C3 (confirmed): with continue-on-failure false the Executor
stops right after the first failure — the compiled result holds exactly
the attempted items (`p` successes and one failure for a first failure
at 0-based position `p`), `skippedCount = requested − attempted`,
never-attempted items are not counted as Failed, and the status is
Partial when at least one item succeeded; with the flag true all
`count` items are attempted. -/
theorem C3_abort_policy (cfg : AntigravityConfig) (gen : Nat → Bool)
    (count p : Nat) (platforms : Option (List String))
    (niche : Option String) (hp : p < count)
    (hsucc : ∀ j, j < p → gen j = true) (hfail : gen p = false) :
    (cfg.batch.retry_on_failure = false →
      (execute_videos cfg gen (count : Int) platforms niche).length = p + 1 ∧
      (compile_batch_result "b" (count : Int)
        (execute_videos cfg gen (count : Int) platforms niche) 0 0).successful_count = p ∧
      (compile_batch_result "b" (count : Int)
        (execute_videos cfg gen (count : Int) platforms niche) 0 0).failed_count = 1 ∧
      (compile_batch_result "b" (count : Int)
        (execute_videos cfg gen (count : Int) platforms niche) 0 0).skipped_count =
        (count : Int) - (p + 1) ∧
      (0 < p →
        (compile_batch_result "b" (count : Int)
          (execute_videos cfg gen (count : Int) platforms niche) 0 0).status = "partial")) ∧
    (cfg.batch.retry_on_failure = true →
      (execute_videos cfg gen (count : Int) platforms niche).length = count) := by
  rw [execute_videos_natCast]
  constructor
  · intro hflag
    have habort := execute_videos_from_abort cfg gen (or_default platforms)
      (niche.getD "general") hflag p count 0 hp
      (by intro j hj; simpa using hsucc j hj) (by simpa using hfail)
    obtain ⟨h1, h2, h3⟩ := habort
    refine ⟨h1, ?_, ?_, ?_, ?_⟩
    · simp [compile_batch_result, h2]
    · simp [compile_batch_result, h3]
    · simp [compile_batch_result, h1]
    · intro hpos
      have hne : ¬ ((count_success (execute_videos_from cfg gen
          (or_default platforms) (niche.getD "general") count 0) : Int) = (count : Int)) := by
        rw [h2]; omega
      have hgt : (count_success (execute_videos_from cfg gen
          (or_default platforms) (niche.getD "general") count 0) : Int) > 0 := by
        rw [h2]; omega
      simp [compile_batch_result, compile_status, hne, hgt]
  · intro hflag
    exact execute_videos_from_length_retry cfg gen (or_default platforms)
      (niche.getD "general") hflag count 0

/-- Witness for `C3_abort_policy`: `count = 3`, item 2 (0-based index 1)
fails, continue-on-failure false — two items are attempted,
`skippedCount = 1`, status Partial. -/
theorem C3_abort_policy_witness :
    (execute_videos { base_config with batch := { base_batch with retry_on_failure := false } }
      (fun i => decide (i ≠ 1)) 3 none none).length = 2 ∧
    (compile_batch_result "b" 3
      (execute_videos { base_config with batch := { base_batch with retry_on_failure := false } }
        (fun i => decide (i ≠ 1)) 3 none none) 0 0).successful_count = 1 ∧
    (compile_batch_result "b" 3
      (execute_videos { base_config with batch := { base_batch with retry_on_failure := false } }
        (fun i => decide (i ≠ 1)) 3 none none) 0 0).skipped_count = 1 ∧
    (compile_batch_result "b" 3
      (execute_videos { base_config with batch := { base_batch with retry_on_failure := false } }
        (fun i => decide (i ≠ 1)) 3 none none) 0 0).status = "partial" := by
  have h := C3_abort_policy
    { base_config with batch := { base_batch with retry_on_failure := false } }
    (fun i => decide (i ≠ 1)) 3 1 none none (by decide)
    (by intro j hj; interval_cases j; decide) (by decide)
  have h1 := h.1 rfl
  exact ⟨by exact_mod_cast h1.1, h1.2.1, by simpa using h1.2.2.2.1, h1.2.2.2.2 (by decide)⟩

/-! ### Cycle path lemmas -/

/-- `_reset_counters` never touches `current_batch`. -/
theorem reset_counters_current_batch (s : CoordState) (b : Option String)
    (now : Int) :
    reset_counters { s with current_batch := b } now =
      { reset_counters s now with current_batch := b } := by
  unfold reset_counters
  dsimp only
  split_ifs <;> rfl

/-- The gate checks never read `current_batch`. -/
theorem gate_reason_current_batch (cfg : AntigravityConfig)
    (s : CoordState) (b : Option String) (now : Int) (tod : Nat) :
    gate_reason cfg { s with current_batch := b } now tod =
      gate_reason cfg s now tod := rfl

/-- `_reset_counters` never touches the history. -/
theorem reset_counters_execution_history (s : CoordState) (now : Int) :
    (reset_counters s now).execution_history = s.execution_history := by
  unfold reset_counters
  dsimp only
  split_ifs <;> rfl

/-- `_reset_counters` never touches `last_execution`. -/
theorem reset_counters_last_execution (s : CoordState) (now : Int) :
    (reset_counters s now).last_execution = s.last_execution := by
  unfold reset_counters
  dsimp only
  split_ifs <;> rfl

/-- When the decision call raises, `_determine_batch_size` falls back
to the configured default whatever the adaptive/veto flags are. -/
theorem determine_batch_size_error (cfg : AntigravityConfig) (e : String) :
    determine_batch_size cfg none (Except.error e) =
      cfg.batch.default_batch_size := by
  unfold determine_batch_size
  by_cases h : cfg.batch.adaptive && cfg.agent_has_veto <;> simp [h]

/-- The except path of `execute_batch`: an orchestration exception is
converted into `_create_failed_result` and `current_batch` cleared. -/
theorem execute_batch_orch_error (cfg : AntigravityConfig) (s : CoordState)
    (inp : BatchInputs) (bid : String) (e : String)
    (horch : inp.orchestration_error = some e) :
    execute_batch cfg s inp bid =
      (create_failed_result bid e inp.total_time inp.now,
       { s with current_batch := none }) := by
  unfold execute_batch
  rw [horch]

/-- The gate-skip path of `execute_batch`. -/
theorem execute_batch_gate_skip (cfg : AntigravityConfig) (s : CoordState)
    (inp : BatchInputs) (bid : String)
    (horch : inp.orchestration_error = none)
    (hgate : gate_reason cfg (reset_counters s inp.now) inp.now inp.tod ≠ none) :
    execute_batch cfg s inp bid =
      (create_skipped_result bid "Rate limit or quiet hours" inp.now,
       { reset_counters s inp.now with current_batch := none }) := by
  unfold execute_batch should_execute
  rw [horch]
  dsimp only
  rw [reset_counters_current_batch, gate_reason_current_batch]
  obtain ⟨r, hr⟩ := Option.ne_none_iff_exists'.mp hgate
  rw [hr]
  rfl

/-- The veto-skip path of `execute_batch`. -/
theorem execute_batch_veto_skip (cfg : AntigravityConfig) (s : CoordState)
    (inp : BatchInputs) (bid : String)
    (horch : inp.orchestration_error = none)
    (hgate : gate_reason cfg (reset_counters s inp.now) inp.now inp.tod = none)
    (hsize : determine_batch_size cfg inp.force_count inp.agent_decision = 0) :
    execute_batch cfg s inp bid =
      (create_skipped_result bid "Agent vetoed execution" inp.now,
       { reset_counters s inp.now with current_batch := none }) := by
  unfold execute_batch should_execute
  rw [horch]
  dsimp only
  rw [reset_counters_current_batch, gate_reason_current_batch, hgate]
  dsimp only [Option.isNone]
  rw [if_pos hsize]
  rfl

/-- The full-run path of `execute_batch`: gate passed, non-zero size. -/
theorem execute_batch_run (cfg : AntigravityConfig) (s : CoordState)
    (inp : BatchInputs) (bid : String)
    (horch : inp.orchestration_error = none)
    (hgate : gate_reason cfg (reset_counters s inp.now) inp.now inp.tod = none)
    (hsize : determine_batch_size cfg inp.force_count inp.agent_decision ≠ 0) :
    execute_batch cfg s inp bid =
      (compile_batch_result bid
        (determine_batch_size cfg inp.force_count inp.agent_decision)
        (execute_videos cfg inp.gen
          (determine_batch_size cfg inp.force_count inp.agent_decision)
          inp.platforms inp.niche) inp.total_time inp.now,
       { update_metrics { reset_counters s inp.now with current_batch := some bid }
          (compile_batch_result bid
            (determine_batch_size cfg inp.force_count inp.agent_decision)
            (execute_videos cfg inp.gen
              (determine_batch_size cfg inp.force_count inp.agent_decision)
              inp.platforms inp.niche) inp.total_time inp.now) inp.now
         with current_batch := none }) := by
  unfold execute_batch should_execute
  rw [horch]
  dsimp only
  rw [reset_counters_current_batch, gate_reason_current_batch, hgate]
  dsimp only [Option.isNone]
  rw [if_neg hsize]
  rfl

/-- Claim C5, counterexample: with the default configuration (adaptive
mode and veto on), a failing decision call makes the cycle proceed at
the default size 3, but the returned `BatchResult` carries an *empty*
rationale — `agent_decision = []` — because `_compile_batch_result`
never receives the failure reason; it is only logged. -/
theorem C5_rationale_counterexample :
    (execute_batch base_config (fresh_state 6000)
      { platforms := none, niche := none, force_count := none,
        agent_decision := Except.error "boom", gen := fun _ => true,
        orchestration_error := none, now := 6000, tod := 600,
        total_time := 0 } "b").1.successful_count = 3 ∧
    (execute_batch base_config (fresh_state 6000)
      { platforms := none, niche := none, force_count := none,
        agent_decision := Except.error "boom", gen := fun _ => true,
        orchestration_error := none, now := 6000, tod := 600,
        total_time := 0 } "b").1.agent_decision = [] := by
  exact ⟨rfl, rfl⟩

/-- Claim C5, amended: whenever the external decision call raises, the
cycle does not abort — it falls back to the deterministic default batch
size (the result reflects the default size, not zero, with every
attempted item succeeding) — but the failure reason is only logged, not
recorded in the returned result, whose rationale stays empty. -/
theorem C5_decider_fallback (cfg : AntigravityConfig) (s : CoordState)
    (inp : BatchInputs) (bid : String) (e : String)
    (horch : inp.orchestration_error = none)
    (herr : inp.agent_decision = Except.error e)
    (hforce : inp.force_count = none)
    (hgate : gate_reason cfg (reset_counters s inp.now) inp.now inp.tod = none)
    (hgen : ∀ i, inp.gen i = true)
    (hd : 0 < cfg.batch.default_batch_size) :
    (execute_batch cfg s inp bid).1.requested_count =
      cfg.batch.default_batch_size ∧
    (execute_batch cfg s inp bid).1.successful_count =
      cfg.batch.default_batch_size ∧
    (execute_batch cfg s inp bid).1.agent_decision = [] := by
  have hsz : determine_batch_size cfg inp.force_count inp.agent_decision =
      cfg.batch.default_batch_size := by
    rw [hforce, herr, determine_batch_size_error]
  rw [execute_batch_run cfg s inp bid horch hgate (by rw [hsz]; omega)]
  rw [hsz]
  refine ⟨rfl, ?_, rfl⟩
  show (count_success (execute_videos cfg inp.gen cfg.batch.default_batch_size
      inp.platforms inp.niche) : Int) = cfg.batch.default_batch_size
  unfold execute_videos
  rw [(execute_videos_from_all_success cfg inp.gen (or_default inp.platforms)
      ((inp.niche).getD "general") hgen (cfg.batch.default_batch_size).toNat 0).2.1]
  exact Int.toNat_of_nonneg (le_of_lt hd)

/-- Witness for `C5_decider_fallback` on the default configuration with
the decision call raising. -/
theorem C5_decider_fallback_witness :
    (execute_batch base_config (fresh_state 7000)
      { platforms := none, niche := none, force_count := none,
        agent_decision := Except.error "timeout", gen := fun _ => true,
        orchestration_error := none, now := 7000, tod := 700,
        total_time := 0 } "b").1.requested_count = 3 ∧
    (execute_batch base_config (fresh_state 7000)
      { platforms := none, niche := none, force_count := none,
        agent_decision := Except.error "timeout", gen := fun _ => true,
        orchestration_error := none, now := 7000, tod := 700,
        total_time := 0 } "b").1.successful_count = 3 ∧
    (execute_batch base_config (fresh_state 7000)
      { platforms := none, niche := none, force_count := none,
        agent_decision := Except.error "timeout", gen := fun _ => true,
        orchestration_error := none, now := 7000, tod := 700,
        total_time := 0 } "b").1.agent_decision = [] := by
  exact C5_decider_fallback base_config (fresh_state 7000)
    { platforms := none, niche := none, force_count := none,
      agent_decision := Except.error "timeout", gen := fun _ => true,
      orchestration_error := none, now := 7000, tod := 700,
      total_time := 0 } "b" "timeout" rfl rfl rfl rfl
    (fun _ => rfl) (by decide)

/-- Claim C8, counterexample: the `Failed` result produced by the
cycle-level exception handler has `failed_count = 1`, not the zero
failed count the claim demands (`_create_failed_result` hard-codes
`failed_count=1`). -/
theorem C8_zero_counts_counterexample :
    (create_failed_result "b" "kaboom" 0 6000).failed_count = 1 ∧
    (create_failed_result "b" "kaboom" 0 6000).failed_count ≠ 0 ∧
    (execute_batch base_config (fresh_state 6000)
      { platforms := none, niche := none, force_count := none,
        agent_decision := Except.ok 3, gen := fun _ => true,
        orchestration_error := some "kaboom", now := 6000, tod := 600,
        total_time := 0 } "b").1.failed_count = 1 := by
  exact ⟨rfl, by decide, rfl⟩

/-- Claim C8, amended: any unexpected exception raised during cycle
orchestration is caught at the top of the cycle and converted into a
`Failed` `BatchResult` with zero requested, successful and skipped
counts, `failed_count = 1`, and the error text recorded in the
rationale; `current_batch` is cleared and the scheduled-job wrapper
returns normally (nothing is thrown out of a scheduled fire). -/
theorem C8_cycle_failure (cfg : AntigravityConfig) (s : CoordState)
    (inp : BatchInputs) (bid : String) (e : String)
    (horch : inp.orchestration_error = some e) :
    (execute_batch cfg s inp bid).1.status = "failed" ∧
    (execute_batch cfg s inp bid).1.requested_count = 0 ∧
    (execute_batch cfg s inp bid).1.successful_count = 0 ∧
    (execute_batch cfg s inp bid).1.failed_count = 1 ∧
    (execute_batch cfg s inp bid).1.skipped_count = 0 ∧
    (execute_batch cfg s inp bid).1.agent_decision = [("error", e)] ∧
    (execute_batch cfg s inp bid).2.current_batch = none ∧
    default_scheduled_job cfg s inp bid = (execute_batch cfg s inp bid).2 := by
  have hjob : default_scheduled_job cfg s inp bid =
      (execute_batch cfg s inp bid).2 := rfl
  rw [execute_batch_orch_error cfg s inp bid e horch] at hjob ⊢
  exact ⟨rfl, rfl, rfl, rfl, rfl, rfl, rfl, hjob⟩

/-- Witness for `C8_cycle_failure` at a concrete orchestration
exception. -/
theorem C8_cycle_failure_witness :
    (execute_batch base_config (fresh_state 6000)
      { platforms := none, niche := none, force_count := none,
        agent_decision := Except.ok 3, gen := fun _ => true,
        orchestration_error := some "disk full", now := 6000, tod := 600,
        total_time := 0 } "b").1.status = "failed" ∧
    (execute_batch base_config (fresh_state 6000)
      { platforms := none, niche := none, force_count := none,
        agent_decision := Except.ok 3, gen := fun _ => true,
        orchestration_error := some "disk full", now := 6000, tod := 600,
        total_time := 0 } "b").1.agent_decision = [("error", "disk full")] := by
  have h := C8_cycle_failure base_config (fresh_state 6000)
    { platforms := none, niche := none, force_count := none,
      agent_decision := Except.ok 3, gen := fun _ => true,
      orchestration_error := some "disk full", now := 6000, tod := 600,
      total_time := 0 } "b" "disk full" rfl
  exact ⟨h.1, h.2.2.2.2.2.1⟩

/-- Claim C10, counterexample: a cycle skipped by quiet hours with a
stale hourly window does *not* leave the counters untouched — the lazy
reset inside the gate zeroes `hourlyCount` (here from 5 to 0) even
though the cycle ends `Skipped`. -/
theorem C10_frame_counterexample :
    (execute_batch base_config
      { fresh_state 6000 with hourly_video_count := 5, last_hour_reset := 5939 }
      { platforms := none, niche := none, force_count := none,
        agent_decision := Except.ok 3, gen := fun _ => true,
        orchestration_error := none, now := 6000, tod := 180,
        total_time := 0 } "b").1.status = "skipped" ∧
    ({ fresh_state 6000 with hourly_video_count := 5, last_hour_reset := 5939 } : CoordState).hourly_video_count = 5 ∧
    (execute_batch base_config
      { fresh_state 6000 with hourly_video_count := 5, last_hour_reset := 5939 }
      { platforms := none, niche := none, force_count := none,
        agent_decision := Except.ok 3, gen := fun _ => true,
        orchestration_error := none, now := 6000, tod := 180,
        total_time := 0 } "b").2.hourly_video_count = 0 := by
  exact ⟨rfl, rfl, rfl⟩

/-- Claim C10, amended: every cycle that ends Skipped — gate veto or
zero decided size — returns a Skipped `BatchResult` with all counts
zero, does not append to the history, does not touch `lastExecutionAt`,
clears `current_batch`, and does not *increment* the counters; the
daily and hourly counts end exactly as the gate's lazy window reset
leaves them (which may zero a stale counter). -/
theorem C10_skip_frame (cfg : AntigravityConfig) (s : CoordState)
    (inp : BatchInputs) (bid : String)
    (horch : inp.orchestration_error = none)
    (hskip : gate_reason cfg (reset_counters s inp.now) inp.now inp.tod ≠ none ∨
      determine_batch_size cfg inp.force_count inp.agent_decision = 0) :
    (execute_batch cfg s inp bid).1.status = "skipped" ∧
    (execute_batch cfg s inp bid).1.requested_count = 0 ∧
    (execute_batch cfg s inp bid).1.successful_count = 0 ∧
    (execute_batch cfg s inp bid).1.failed_count = 0 ∧
    (execute_batch cfg s inp bid).1.skipped_count = 0 ∧
    (execute_batch cfg s inp bid).2.execution_history = s.execution_history ∧
    (execute_batch cfg s inp bid).2.last_execution = s.last_execution ∧
    (execute_batch cfg s inp bid).2.current_batch = none ∧
    (execute_batch cfg s inp bid).2.daily_video_count =
      (reset_counters s inp.now).daily_video_count ∧
    (execute_batch cfg s inp bid).2.hourly_video_count =
      (reset_counters s inp.now).hourly_video_count := by
  by_cases hg : gate_reason cfg (reset_counters s inp.now) inp.now inp.tod = none
  · have hsz := hskip.resolve_left (not_not_intro hg)
    rw [execute_batch_veto_skip cfg s inp bid horch hg hsz]
    exact ⟨rfl, rfl, rfl, rfl, rfl, reset_counters_execution_history s inp.now,
      reset_counters_last_execution s inp.now, rfl, rfl, rfl⟩
  · rw [execute_batch_gate_skip cfg s inp bid horch hg]
    exact ⟨rfl, rfl, rfl, rfl, rfl, reset_counters_execution_history s inp.now,
      reset_counters_last_execution s inp.now, rfl, rfl, rfl⟩

/-- Witness for `C10_skip_frame`: a cycle vetoed by a forced count of 0
leaves history, `last_execution` and (here unexpired) counters as they
were. -/
theorem C10_skip_frame_witness :
    (execute_batch base_config (fresh_state 8000)
      { platforms := none, niche := none, force_count := some 0,
        agent_decision := Except.ok 3, gen := fun _ => true,
        orchestration_error := none, now := 8000, tod := 700,
        total_time := 0 } "b").1.status = "skipped" ∧
    (execute_batch base_config (fresh_state 8000)
      { platforms := none, niche := none, force_count := some 0,
        agent_decision := Except.ok 3, gen := fun _ => true,
        orchestration_error := none, now := 8000, tod := 700,
        total_time := 0 } "b").2.execution_history = [] ∧
    (execute_batch base_config (fresh_state 8000)
      { platforms := none, niche := none, force_count := some 0,
        agent_decision := Except.ok 3, gen := fun _ => true,
        orchestration_error := none, now := 8000, tod := 700,
        total_time := 0 } "b").2.last_execution = none := by
  have h := C10_skip_frame base_config (fresh_state 8000)
    { platforms := none, niche := none, force_count := some 0,
      agent_decision := Except.ok 3, gen := fun _ => true,
      orchestration_error := none, now := 8000, tod := 700,
      total_time := 0 } "b" rfl (Or.inr rfl)
  exact ⟨h.1, h.2.2.2.2.2.1, h.2.2.2.2.2.2.1⟩

/-! ### History metrics -/

/-- `l[-n:]` keeps `min n (len l)` elements. -/
theorem lastN_length (n : Nat) (l : List α) : (lastN n l).length = min n l.length := by
  unfold lastN
  rw [List.length_drop]
  omega

/-- A history entry with `requested_count = 0` (used to probe the
zero-requested window of the metric). -/
def zero_result : BatchResult :=
  { batch_id := "z"
    status := "skipped"
    requested_count := 0
    successful_count := 0
    failed_count := 0
    skipped_count := 0
    total_time := 0
    videos := []
    agent_decision := []
    timestamp := 0 }

/-- Claim C9, counterexample: on a non-empty history whose last-10
window has `Σrequested = 0`, the metric returns `successRate = 0` — a
*defined* zero, produced by the `else 0` arm — not the undefined value
the claim demands. -/
theorem C9_zero_window_counterexample :
    sum_requested (lastN 10 [zero_result]) = 0 ∧
    (get_recent_performance [zero_result]).success_rate = some 0 := by
  exact ⟨rfl, rfl⟩

/-- Claim C9, amended: the metric is computed over the last-10 window:
`successRate = Σsuccessful / Σrequested` when `Σrequested > 0`, while a
window with `Σrequested = 0` on a non-empty history yields
`successRate = 0` (defined; the rate is `None`/undefined only when the
whole history is empty); `avgBatchSize = Σrequested / windowSize` with
`windowSize = min 10 (history length)`. -/
theorem C9_recent_performance (h : List BatchResult) (hne : h ≠ []) :
    (0 < sum_requested (lastN 10 h) →
      (get_recent_performance h).success_rate =
        some ((sum_successful (lastN 10 h) : Rat) / (sum_requested (lastN 10 h) : Rat))) ∧
    (sum_requested (lastN 10 h) = 0 →
      (get_recent_performance h).success_rate = some 0) ∧
    (get_recent_performance h).avg_batch_size =
      some ((sum_requested (lastN 10 h) : Rat) / ((lastN 10 h).length : Rat)) ∧
    (get_recent_performance h).total_batches = some (lastN 10 h).length ∧
    (lastN 10 h).length = min 10 h.length ∧
    (get_recent_performance []).success_rate = none := by
  have hni : h.isEmpty = false := by simpa [List.isEmpty_iff] using hne
  unfold get_recent_performance
  rw [if_neg (by simp [hni])]
  dsimp only
  refine ⟨?_, ?_, rfl, rfl, lastN_length 10 h, rfl⟩
  · intro hpos
    rw [if_pos hpos]
  · intro hz
    rw [if_neg (by omega)]

/-- Witness for `C9_recent_performance` on the one-entry history with
`Σrequested = 0`. -/
theorem C9_recent_performance_witness :
    (get_recent_performance [zero_result]).success_rate = some 0 ∧
    (lastN 10 [zero_result]).length = 1 := by
  have h := C9_recent_performance [zero_result] (by simp)
  exact ⟨h.2.1 rfl, by simpa using h.2.2.2.2.1⟩

/-! ### Single-flight violation -/

/-- Configuration for the concurrency scenario: non-adaptive (the
Decider deterministically returns the default size 2), otherwise the
defaults. -/
def cfg_conc : AntigravityConfig :=
  { base_config with batch :=
      { base_batch with adaptive := false, default_batch_size := 2 } }

/-- Inputs shared by the scheduled fire and the manual trigger: gate
passes (10:00, fresh counters), all provider calls succeed. -/
def inp_conc : BatchInputs :=
  { platforms := none
    niche := none
    force_count := none
    agent_decision := Except.ok 2
    gen := fun _ => true
    orchestration_error := none
    now := 6000
    tod := 600
    total_time := 0 }

/-- Initial system: task 1 is a scheduled fire, task 2 a manual
trigger, sharing a fresh coordinator. -/
def sys_conc : Sys :=
  { t1 := { phase := .notStarted, inp := inp_conc, batch_id := "batch_A" }
    t2 := { phase := .notStarted, inp := inp_conc, batch_id := "batch_B" }
    shared := fresh_state 6000 }

/-- Claim C2 (code bug): `execute_batch` acquires no lock and never
checks `current_batch`, so a manual trigger invoked while a cycle is
suspended at the awaited per-item provider call starts a second cycle.
After the interleaving [task 1 runs to its first item await, task 2
runs to its first item await], both cycles are simultaneously mid-
Executor — and task 2 has overwritten the single-flight marker from
"batch_A" to "batch_B" while task 1 is still unfinished. -/
theorem C2_single_flight_violated :
    (run_trace cfg_conc sys_conc [true]).shared.current_batch = some "batch_A" ∧
    (run_trace cfg_conc sys_conc [true]).t1.phase.isRunning = true ∧
    (run_trace cfg_conc sys_conc [true, false]).t1.phase.isRunning = true ∧
    (run_trace cfg_conc sys_conc [true, false]).t2.phase.isRunning = true ∧
    (run_trace cfg_conc sys_conc [true, false]).shared.current_batch = some "batch_B" := by
  exact ⟨rfl, rfl, rfl, rfl, rfl⟩

end Antigravity
